import Mathlib

/-!
Formal model of `library.py`, a console-driven book-catalog manager.

The embedding follows the source closely:
* `Book` / `Library` mirror the two Python classes; machine state is passed
  explicitly and Python exceptions (`ValueError`, `KeyError`, `TypeError`) as
  well as the process-terminating `exit(...)` calls of `load_data` are modelled
  with `Except String`.
* Python keyword arguments to `Library.search` are modelled by the `Criteria`
  record of optional strings; an absent keyword is `none`, a keyword supplied
  with the empty string is `some ""` (falsy in Python, hence filtered out of
  the condition list exactly as `if value` does in the comprehension).
* JSON values exchanged by `save` / `load_data` are modelled structurally: the
  `books` array of the file is a `List BookDict`.
-/

/-- The `Book` class of `library.py`: id, title, author, year and status,
all strings (the console reads every field as a string). -/
structure Book where
  id : String
  title : String
  author : String
  year : String
  status : String
  deriving Repr, DecidableEq

/-- `Book.BOOK_STATUSES`: the status-code dictionary, insertion order as in the
source (`"0" → "Выдана"`, `"1" → "В наличии"`). -/
def BOOK_STATUSES : List (String × String) :=
  [("0", "Выдана"), ("1", "В наличии")]

/-- `BOOK_STATUSES.values()` in iteration order. -/
def statusValues : List String := BOOK_STATUSES.map Prod.snd

/-- `Book.BAD_BOOK_STATUS` message text. -/
def BAD_BOOK_STATUS : String := "Недопустимый статус книги: "

/-- `Book.__init__(self, title, author, year, id=..., status="В наличии")`:
stores the fields and validates the status against `BOOK_STATUSES.values()`,
raising `ValueError` otherwise.  The default arguments are supplied explicitly
by callers of this model (see `Book.initNoId` for the `id` default). -/
def Book.init (title author year id status : String) : Except String Book :=
  if status ∈ statusValues then
    .ok { id := id, title := title, author := author, year := year, status := status }
  else
    .error (BAD_BOOK_STATUS ++ status)

/-- Construction with `id` omitted.  In the source the default is
`id=str(uuid4().int)`, a Python default argument: the expression is evaluated
ONCE, when `__init__` is defined, so every call that omits `id` receives the
same token.  That process-wide token is the `defaultId` parameter here. -/
def Book.initNoId (defaultId title author year : String) : Except String Book :=
  Book.init title author year defaultId "В наличии"

/-- `Book.set_status(self, status)`: `self.status = self.BOOK_STATUSES[status]`;
a missing key raises `KeyError`. -/
def Book.set_status (b : Book) (status : String) : Except String Book :=
  match BOOK_STATUSES.lookup status with
  | some s => .ok { b with status := s }
  | none => .error ("KeyError: " ++ status)

/-- The `Library` class: its only field is the list of books. -/
structure Library where
  books : List Book
  deriving Repr, DecidableEq

/-- `Library.add_book`: `self.books.append(book)`. -/
def Library.add_book (l : Library) (b : Book) : Library :=
  { books := l.books ++ [b] }

/-- `Library.list`: returns `self.books`. -/
def Library.list (l : Library) : List Book := l.books

/-- Keyword criteria accepted by `Library.search`:
`none` = keyword absent, `some v` = keyword supplied with value `v`. -/
structure Criteria where
  id : Option String := none
  title : Option String := none
  author : Option String := none
  year : Option String := none
  deriving Repr, DecidableEq

/-- Python truthiness of an optional string criterion: present and non-empty. -/
def truthyOpt : Option String → Bool
  | none => false
  | some v => v ≠ ""

/-- One entry of the comprehension
`[getattr(book, field) == value for (field, value) in kwargs.items() if value]`:
a supplied, truthy value contributes the equality test, anything else nothing. -/
def optCond (value : Option String) (test : String → Bool) : List Bool :=
  match value with
  | none => []
  | some v => if v = "" then [] else [test v]

/-- The full condition list built for one book.  (`kwargs.items()` iterates in
call order in Python; since the conditions are combined by `and`, which is
commutative, a fixed order – id, title, author, year – is faithful.) -/
def condList (c : Criteria) (b : Book) : List Bool :=
  optCond c.id (fun v => b.id = v) ++ optCond c.title (fun v => b.title = v)
    ++ optCond c.author (fun v => b.author = v) ++ optCond c.year (fun v => b.year = v)

/-- `TypeError` raised by `reduce(operator.and_, [])` (no initial value). -/
def TYPE_ERROR : String :=
  "TypeError: reduce() of empty iterable with no initial value"

/-- `reduce(operator.and_, conditions)` applied to one book: error on an empty
condition list, the conjunction otherwise. -/
def matchBook (c : Criteria) (b : Book) : Except String Bool :=
  match condList c b with
  | [] => .error TYPE_ERROR
  | x :: xs => .ok (xs.foldl (· && ·) x)

/-- The `for book in self.books` filtering loop of `Library.search`:
first book whose `reduce` raises aborts the call. -/
def searchLoop (c : Criteria) : List Book → Except String (List Book)
  | [] => .ok []
  | b :: bs =>
    match matchBook c b with
    | .error e => .error e
    | .ok true => (searchLoop c bs).map (b :: ·)
    | .ok false => searchLoop c bs

/-- Result of `Library.search`: a single book (the `return book` in the id
branch) or a list (the `return found` at the end). -/
inductive SearchResult where
  | book : Book → SearchResult
  | books : List Book → SearchResult
  deriving Repr, DecidableEq

/-- Python truthiness of a search result: an object is truthy, a list is
truthy iff non-empty. -/
def SearchResult.isTruthy : SearchResult → Bool
  | .book _ => true
  | .books l => !l.isEmpty

/-- `Library.search(self, **kwargs)`: if `'id' in kwargs`, scan for the first
book with that id and return it; when no book matches, control FALLS THROUGH
(the source has no `return` after that loop) into the general conjunctive
filter, `id` included among its criteria. -/
def Library.search (l : Library) (c : Criteria) : Except String SearchResult :=
  match c.id with
  | some v =>
    match l.books.find? (fun b => b.id = v) with
    | some b => .ok (.book b)
    | none => (searchLoop c l.books).map .books
  | none => (searchLoop c l.books).map .books

/-- One element of the `books` array of the JSON file: the five required
fields (`load_data` reads exactly these keys; a missing key would raise
`KeyError`, a case the claims below never need because the dictionaries
produced by `save` always carry all five). -/
structure BookDict where
  id : String
  title : String
  author : String
  year : String
  status : String
  deriving Repr, DecidableEq

/-- `Library.BAD_FILE_MESSAGE`. -/
def BAD_FILE_MESSAGE : String := "Некорректный формат файла: "

/-- `Library.REPEATED_ID`. -/
def REPEATED_ID : String := "повторяющийся ID: "

/-- The `for book in data` loop of `Library.load_data`, with the `ids_set`
dictionary threaded through.  Exactly as in the source, NOTHING is ever added
to `ids_set` inside the loop, so the recursive call passes it unchanged and
the duplicate-id test `book["id"] in ids_set` can only consult the initial
(empty) contents.  `exit(...)` on a raised error is modelled by `.error`. -/
def loadLoop (ids_set : List String) : Library → List BookDict → Except String Library
  | lib, [] => .ok lib
  | lib, book :: rest =>
    if book.id ∈ ids_set then
      .error (BAD_FILE_MESSAGE ++ REPEATED_ID)
    else
      match Book.init book.title book.author book.year book.id book.status with
      | .ok b => loadLoop ids_set (lib.add_book b) rest
      | .error e => .error e

/-- `Library.load_data`: reads the `books` array and appends a `Book` per
element to `self.books`; `ids_set = {}` starts empty. -/
def Library.load_data (lib : Library) (data : List BookDict) : Except String Library :=
  loadLoop [] lib data

/-- `x.__dict__` of a `Book`, as serialized by `save`. -/
def Book.toDict (b : Book) : BookDict :=
  { id := b.id, title := b.title, author := b.author, year := b.year, status := b.status }

/-- `Library.save`: `json.dump(self, fp, default=lambda x: x.__dict__)` writes
the library as an object whose single `books` key holds the array of book
field dictionaries, in list order. -/
def Library.save (lib : Library) : List BookDict :=
  lib.books.map Book.toDict

/-- The books successfully constructible from a `books` array, in file order:
the value `load_data` effectively appends when it succeeds. -/
def booksFrom : List BookDict → Except String (List Book)
  | [] => .ok []
  | d :: ds =>
    match Book.init d.title d.author d.year d.id d.status with
    | .ok b => (booksFrom ds).map (b :: ·)
    | .error e => .error e

/-- A Python reference to a `Book` object: its identity (address) together
with its field values.  Needed to model `list.remove`: `Book` defines no
`__eq__`, so `==` between two `Book` instances compares identity. -/
structure BookRef where
  addr : Nat
  val : Book
  deriving Repr, DecidableEq

/-- Python `==` on two `Book` instances: identity comparison (default
`object.__eq__`, since the class defines none). -/
def BookRef.pyEq (a b : BookRef) : Bool := a.addr = b.addr

/-- `ValueError` raised by `list.remove` on a miss. -/
def VALUE_ERROR : String := "ValueError: list.remove(x): x not in list"

/-- `list.remove(x)`: removes the first element comparing equal to `x`
(identity for `Book`), raises `ValueError` when none does. -/
def removeFirst (b : BookRef) : List BookRef → Except String (List BookRef)
  | [] => .error VALUE_ERROR
  | x :: xs => if x.pyEq b then .ok xs else (removeFirst b xs).map (x :: ·)

/-- `Library.delete`: `self.books.remove(book)`, on the book list viewed as a
list of object references. -/
def Library.delete (books : List BookRef) (book : BookRef) : Except String (List BookRef) :=
  removeFirst book books

/-- The non-id matching rule as the specification words it: every supplied
non-empty criterion (`title`, `author`, `year`) is an exact-equality filter,
combined by logical AND; empty or absent criteria impose no constraint.
Stated from the spec to be compared with what the source's loop computes. -/
def specMatches (c : Criteria) (b : Book) : Bool :=
  (match c.title with
    | none => true
    | some v => if v = "" then true else b.title = v)
  && (match c.author with
    | none => true
    | some v => if v = "" then true else b.author = v)
  && (match c.year with
    | none => true
    | some v => if v = "" then true else b.year = v)

/-- Concrete fixture: a book titled "A". -/
def bkA : Book :=
  { id := "1", title := "A", author := "B", year := "2000", status := "В наличии" }

/-- Concrete fixture: a checked-out book. -/
def bkB : Book :=
  { id := "2", title := "C", author := "D", year := "2001", status := "Выдана" }

/-- Concrete fixture: a second, distinct book also titled "A". -/
def bkA2 : Book :=
  { id := "3", title := "A", author := "E", year := "2002", status := "В наличии" }

/-- Concrete fixture: a JSON `books` element with id "7". -/
def dupDict : BookDict :=
  { id := "7", title := "T", author := "A", year := "1999", status := "В наличии" }

/-- The book that `load_data` constructs from `dupDict`. -/
def dupBook : Book :=
  { id := "7", title := "T", author := "A", year := "1999", status := "В наличии" }

/-! ### Helper lemmas -/

/-- `reduce(operator.and_, x :: xs)` is the conjunction of all elements. -/
theorem foldl_and_eq (xs : List Bool) (x : Bool) :
    xs.foldl (· && ·) x = (x && xs.all id) := by
  induction xs generalizing x with
  | nil => simp
  | cons y ys ih => simp [ih (x && y), Bool.and_assoc]

/-- A non-truthy criterion contributes no condition. -/
theorem optCond_of_not_truthy (o : Option String) (t : String → Bool)
    (h : truthyOpt o = false) : optCond o t = [] := by
  cases o with
  | none => rfl
  | some v =>
    simp [truthyOpt] at h
    simp [optCond, h]

/-- A truthy criterion contributes its condition. -/
theorem optCond_of_truthy (o : Option String) (t : String → Bool)
    (h : truthyOpt o = true) : optCond o t ≠ [] := by
  cases o with
  | none => simp [truthyOpt] at h
  | some v =>
    simp [truthyOpt] at h
    simp [optCond, h]

/-- `reduce` over one book succeeds iff its condition list is non-empty, and
then computes the conjunction. -/
theorem matchBook_of_ne_nil (c : Criteria) (b : Book) (h : condList c b ≠ []) :
    matchBook c b = .ok ((condList c b).all id) := by
  cases hcl : condList c b with
  | nil => exact absurd hcl h
  | cons x xs =>
    simp only [matchBook, hcl]
    simp [foldl_and_eq]

/-- The filtering loop, when no book's `reduce` raises, computes a filter. -/
theorem searchLoop_eq_filter (c : Criteria) (bs : List Book)
    (h : ∀ b ∈ bs, condList c b ≠ []) :
    searchLoop c bs = .ok (bs.filter (fun b => (condList c b).all id)) := by
  induction bs with
  | nil => rfl
  | cons b rest ih =>
    have hm := matchBook_of_ne_nil c b (h b (by simp))
    have hr := ih (fun x hx => h x (by simp [hx]))
    cases hall : (condList c b).all id <;>
      simp [searchLoop, hm, hall, hr, List.filter_cons, Except.map]

/-- The filtering loop returns the empty list when every book fails. -/
theorem searchLoop_all_false (c : Criteria) (bs : List Book)
    (h : ∀ b ∈ bs, matchBook c b = .ok false) :
    searchLoop c bs = .ok [] := by
  induction bs with
  | nil => rfl
  | cons b rest ih =>
    simp [searchLoop, h b (by simp), ih (fun x hx => h x (by simp [hx]))]

/-- The conjunction over one optional criterion's contribution. -/
theorem all_optCond (o : Option String) (t : String → Bool) :
    (optCond o t).all id = (match o with
      | none => true
      | some v => if v = "" then true else t v) := by
  cases o with
  | none => rfl
  | some v => by_cases hv : v = "" <;> simp [optCond, hv]

/-- With no `id` criterion, the conjunction the source computes coincides with
the specification's matching rule. -/
theorem condList_all_eq_specMatches (c : Criteria) (b : Book) (hid : c.id = none) :
    (condList c b).all id = specMatches c b := by
  simp only [condList, hid]
  rw [show optCond none (fun v => b.id = v) = [] from rfl, List.nil_append,
    List.all_append, List.all_append, all_optCond, all_optCond, all_optCond]
  simp [specMatches, Bool.and_assoc]

/-- A successful construction stores the supplied fields; the status passed
the membership check. -/
theorem init_ok (t a y i s : String) (b : Book) (h : Book.init t a y i s = .ok b) :
    b = { id := i, title := t, author := a, year := y, status := s }
      ∧ s ∈ statusValues := by
  unfold Book.init at h
  split at h
  · cases h
    exact ⟨rfl, by assumption⟩
  · cases h

/-- Construction with a status outside the enumeration raises `ValueError`. -/
theorem init_error (t a y i s : String) (h : s ∉ statusValues) :
    Book.init t a y i s = .error (BAD_BOOK_STATUS ++ s) := by
  simp [Book.init, h]

/-- Spelling out membership in the status enumeration. -/
theorem mem_statusValues_iff (s : String) :
    s ∈ statusValues ↔ s = "Выдана" ∨ s = "В наличии" := by
  simp [statusValues, BOOK_STATUSES]

/-- `load_data` is `booksFrom` followed by appending to the existing list:
the `ids_set` test never fires because the set stays empty. -/
theorem load_data_eq (lib : Library) (data : List BookDict) :
    Library.load_data lib data
      = (booksFrom data).map (fun bs => Library.mk (lib.books ++ bs)) := by
  show loadLoop [] lib data = _
  induction data generalizing lib with
  | nil => simp [loadLoop, booksFrom, Except.map]
  | cons d ds ih =>
    cases hinit : Book.init d.title d.author d.year d.id d.status with
    | ok b =>
      have ih' := ih (lib.add_book b)
      simp only [Library.add_book] at ih'
      simp only [loadLoop, booksFrom, List.not_mem_nil, if_false, hinit,
        Library.add_book, ih']
      cases hbf : booksFrom ds <;> simp [Except.map, List.append_assoc]
    | error e =>
      simp [loadLoop, booksFrom, List.not_mem_nil, if_false, hinit, Except.map]

/-- Saving and re-reading reconstructs the very same books, provided every
status is a valid display string. -/
theorem booksFrom_save (bs : List Book) (h : ∀ b ∈ bs, b.status ∈ statusValues) :
    booksFrom (bs.map Book.toDict) = .ok bs := by
  induction bs with
  | nil => rfl
  | cons b rest ih =>
    have hinit : Book.init b.title b.author b.year b.id b.status = .ok b := by
      rw [Book.init, if_pos (h b (by simp))]
    simp [booksFrom, Book.toDict, hinit, ih (fun x hx => h x (by simp [hx])), Except.map]

/-- Every book constructed by a successful bulk load carries a valid status. -/
theorem booksFrom_status (data : List BookDict) (bs : List Book)
    (h : booksFrom data = .ok bs) : ∀ b ∈ bs, b.status ∈ statusValues := by
  induction data generalizing bs with
  | nil =>
    simp only [booksFrom] at h
    cases h
    simp
  | cons d ds ih =>
    simp only [booksFrom] at h
    cases hinit : Book.init d.title d.author d.year d.id d.status with
    | error e => rw [hinit] at h; cases h
    | ok b =>
      rw [hinit] at h
      cases hbf : booksFrom ds with
      | error e => rw [hbf] at h; cases h
      | ok rest =>
        rw [hbf] at h
        cases h
        intro x hx
        rcases List.mem_cons.mp hx with hx | hx
        · subst hx
          exact (init_ok _ _ _ _ _ _ hinit).1 ▸ (init_ok _ _ _ _ _ _ hinit).2
        · exact ih rest hbf x hx

/-- A successful `set_status` stores one of the two display strings. -/
theorem set_status_ok (b : Book) (code : String) (b' : Book)
    (h : Book.set_status b code = .ok b') : b'.status ∈ statusValues := by
  by_cases h0 : code = "0"
  · subst h0
    have h2 : (Except.ok { b with status := "Выдана" } : Except String Book)
        = Except.ok b' := h
    cases h2
    simp [statusValues, BOOK_STATUSES]
  · by_cases h1 : code = "1"
    · subst h1
      have h2 : (Except.ok { b with status := "В наличии" } : Except String Book)
          = Except.ok b' := h
      cases h2
      simp [statusValues, BOOK_STATUSES]
    · exfalso
      have e0 : (code == "0") = false := beq_eq_false_iff_ne.mpr h0
      have e1 : (code == "1") = false := beq_eq_false_iff_ne.mpr h1
      have hl : List.lookup code BOOK_STATUSES = none := by
        simp [BOOK_STATUSES, List.lookup, e0, e1]
      unfold Book.set_status at h
      rw [hl] at h
      cases h

/-! ### Claims -/

/-- Claim C1, counterexample: on a library holding one book, `search` with all
criteria empty or absent raises `TypeError` (the `reduce` has no conditions
and no initial value) instead of returning the full book list. -/
theorem search_no_criteria_errors :
    Library.search ⟨[bkA]⟩ {} = .error TYPE_ERROR
      ∧ Library.search ⟨[bkA]⟩ {} ≠ .ok (.books [bkA]) := by
  refine ⟨rfl, fun hcontra => ?_⟩
  have h2 : (Except.error TYPE_ERROR : Except String SearchResult)
      = .ok (.books [bkA]) := hcontra
  cases h2

/-- Claim C1 (amended): `search` with no id and every criterion empty or
absent returns the full book list only when the library is empty; on a
non-empty library the call fails with the `TypeError` raised by
`reduce(operator.and_, [])`. -/
theorem search_no_criteria_amended (lib : Library) (c : Criteria)
    (hid : c.id = none) (ht : truthyOpt c.title = false)
    (ha : truthyOpt c.author = false) (hy : truthyOpt c.year = false) :
    (lib.books = [] → lib.search c = .ok (.books lib.books))
      ∧ (lib.books ≠ [] → lib.search c = .error TYPE_ERROR) := by
  have hcl : ∀ b : Book, condList c b = [] := by
    intro b
    simp only [condList, hid]
    rw [optCond_of_not_truthy _ _ ht, optCond_of_not_truthy _ _ ha,
      optCond_of_not_truthy _ _ hy]
    rfl
  constructor
  · intro hnil
    simp [Library.search, hid, hnil, searchLoop, Except.map]
  · intro hne
    obtain ⟨b, bs, hbs⟩ := List.exists_cons_of_ne_nil hne
    simp [Library.search, hid, hbs, searchLoop, matchBook, hcl b, Except.map]

/-- Witness for the amended C1 at a concrete library and criteria. -/
theorem search_no_criteria_amended_witness :
    Library.search ⟨[bkA]⟩ { title := some "" } = .error TYPE_ERROR :=
  (search_no_criteria_amended ⟨[bkA]⟩ { title := some "" } rfl rfl rfl rfl).2
    (by simp)

/-- Claim C2: the source means to reject a duplicated id during a load, but
`ids_set` is never populated, so loading a `books` array whose two elements
share id "7" completes normally and adds both books. -/
theorem load_duplicate_id_accepted :
    Library.load_data ⟨[]⟩ [dupDict, dupDict] = .ok ⟨[dupBook, dupBook]⟩
      ∧ dupDict.id = dupDict.id := ⟨rfl, rfl⟩

/-- Claim C3: the `id` default is the Python default argument
`str(uuid4().int)`, evaluated once at function definition; every construction
that omits `id` therefore receives the same process-wide token, so two such
books can never have distinct ids. -/
theorem default_id_shared_across_constructions
    (defaultId t a y : String) :
    (Book.initNoId defaultId t a y).toOption.map Book.id = some defaultId := rfl

/-- Claim C4: `status` is always one of the two display strings: construction
validates it and rejects anything else with `ValueError`, an omitted status
yields "В наличии", a successful `set_status` stores a display string, and a
successful bulk load preserves the invariant. -/
theorem status_invariant :
    (∀ t a y i s b, Book.init t a y i s = .ok b →
        b.status = "В наличии" ∨ b.status = "Выдана")
    ∧ (∀ t a y i s, s ≠ "Выдана" → s ≠ "В наличии" →
        Book.init t a y i s = .error (BAD_BOOK_STATUS ++ s))
    ∧ (∀ t a y i, ∃ b, Book.init t a y i "В наличии" = .ok b
        ∧ b.status = "В наличии")
    ∧ (∀ b code b', Book.set_status b code = .ok b' →
        b'.status = "В наличии" ∨ b'.status = "Выдана")
    ∧ (∀ lib data lib', Library.load_data lib data = .ok lib' →
        (∀ b ∈ lib.books, b.status = "В наличии" ∨ b.status = "Выдана") →
        ∀ b ∈ lib'.books, b.status = "В наличии" ∨ b.status = "Выдана") := by
  refine ⟨?_, ?_, ?_, ?_, ?_⟩
  · intro t a y i s b h
    obtain ⟨hb, hs⟩ := init_ok t a y i s b h
    subst hb
    exact Or.symm ((mem_statusValues_iff s).mp hs)
  · intro t a y i s h1 h2
    exact init_error t a y i s (by simp [mem_statusValues_iff, h1, h2])
  · intro t a y i
    exact ⟨_, rfl, rfl⟩
  · intro b code b' h
    exact Or.symm ((mem_statusValues_iff _).mp (set_status_ok b code b' h))
  · intro lib data lib' h hprev b hb
    rw [load_data_eq] at h
    cases hbf : booksFrom data with
    | error e => rw [hbf] at h; simp [Except.map] at h
    | ok bs =>
      rw [hbf] at h
      have h2 : (Except.ok (Library.mk (lib.books ++ bs)) : Except String Library)
          = .ok lib' := h
      cases h2
      rcases List.mem_append.mp hb with hmem | hmem
      · exact hprev b hmem
      · exact Or.symm
          ((mem_statusValues_iff _).mp (booksFrom_status data bs hbf b hmem))

/-- Witness for C4: a concrete successful construction has a valid status. -/
theorem status_invariant_witness :
    bkA.status = "В наличии" ∨ bkA.status = "Выдана" :=
  status_invariant.1 "A" "B" "2000" "1" "В наличии" bkA rfl

/-- Claim C5: saving a library and loading the produced JSON into a fresh
empty library reconstructs the same books, field for field, in order.  (The
status-validity hypothesis is the `Book` data-model invariant, established by
C4 for every constructible book.) -/
theorem save_load_roundtrip (lib : Library)
    (hids : lib.books.Pairwise (fun a b => a.id ≠ b.id))
    (hst : ∀ b ∈ lib.books, b.status ∈ statusValues) :
    Library.load_data ⟨[]⟩ lib.save = .ok lib := by
  rw [load_data_eq]
  simp only [Library.save]
  rw [booksFrom_save lib.books hst]
  simp [Except.map]

/-- Witness for C5 at a two-book library with distinct ids. -/
theorem save_load_roundtrip_witness :
    Library.load_data ⟨[]⟩ (Library.save ⟨[bkA, bkB]⟩) = .ok ⟨[bkA, bkB]⟩ :=
  save_load_roundtrip ⟨[bkA, bkB]⟩ (by decide) (by decide)

/-- Claim C6, counterexample: criteria include an id (the empty string), no
book carries that id, yet the call returns a non-empty — truthy — list,
because the unmatched id branch falls through to the conjunctive filter and
the falsy id value is dropped from the conditions. -/
theorem search_blank_id_fallthrough :
    (∀ b ∈ (Library.mk [bkA]).books, b.id ≠ "")
    ∧ Library.search ⟨[bkA]⟩ { id := some "", title := some "A" }
        = .ok (.books [bkA])
    ∧ SearchResult.isTruthy (.books [bkA]) = true := by
  exact ⟨by decide, rfl, rfl⟩

/-- Claim C6 (amended): with an `id` criterion, the first book whose id
matches is returned, other criteria ignored; when no book has that id and the
id value is non-empty, the fall-through filter keeps the id equality among its
conditions, so the result is the empty — falsy — list regardless of the other
criteria.  (An empty id value that matches no book instead falls through to a
plain non-id search.) -/
theorem search_by_id_amended (lib : Library) (c : Criteria) (v : String)
    (hid : c.id = some v) :
    (∀ b, lib.books.find? (fun x => x.id = v) = some b →
        lib.search c = .ok (.book b))
    ∧ (lib.books.find? (fun x => x.id = v) = none → v ≠ "" →
        ∃ r, lib.search c = .ok r ∧ r.isTruthy = false) := by
  constructor
  · intro b hb
    simp [Library.search, hid, hb]
  · intro hnone hv
    refine ⟨.books [], ?_, rfl⟩
    have hfalse : ∀ b ∈ lib.books, matchBook c b = .ok false := by
      intro b hb
      have hbid : ¬ (b.id = v) := by
        have := List.find?_eq_none.mp hnone b hb
        simpa using this
      have hcl : condList c b
          = decide (b.id = v)
            :: (optCond c.title (fun w => b.title = w)
              ++ optCond c.author (fun w => b.author = w)
              ++ optCond c.year (fun w => b.year = w)) := by
        simp [condList, hid, optCond, hv]
      simp only [matchBook, hcl]
      simp [foldl_and_eq, hbid]
    have hloop := searchLoop_all_false c lib.books hfalse
    simp [Library.search, hid, hnone, hloop, Except.map]

/-- Witness for the amended C6: the id matches the second book, the bogus
title criterion alongside is ignored. -/
theorem search_by_id_amended_witness :
    Library.search ⟨[bkA, bkA2]⟩ { id := some "3", title := some "zzz" }
      = .ok (.book bkA2) :=
  (search_by_id_amended ⟨[bkA, bkA2]⟩ { id := some "3", title := some "zzz" }
    "3" rfl).1 bkA2 rfl

/-- Claim C7: a search without `id` and with at least one non-empty criterion
returns exactly the books matching every supplied non-empty criterion
(conjunction; empty criteria impose no constraint), in original order. -/
theorem search_conjunctive_filter (lib : Library) (c : Criteria)
    (hid : c.id = none)
    (hsome : truthyOpt c.title = true ∨ truthyOpt c.author = true
      ∨ truthyOpt c.year = true) :
    lib.search c = .ok (.books (lib.books.filter (fun b => specMatches c b))) := by
  have hne : ∀ b : Book, condList c b ≠ [] := by
    intro b hcontra
    simp only [condList, hid] at hcontra
    rw [show optCond none (fun v => decide (b.id = v)) = [] from rfl,
      List.nil_append] at hcontra
    rcases List.append_eq_nil.mp hcontra with ⟨h12, h3⟩
    rcases List.append_eq_nil.mp h12 with ⟨h1, h2⟩
    rcases hsome with h | h | h
    · exact optCond_of_truthy _ _ h h1
    · exact optCond_of_truthy _ _ h h2
    · exact optCond_of_truthy _ _ h h3
  have hloop := searchLoop_eq_filter c lib.books (fun b _ => hne b)
  have hfilter : lib.books.filter (fun b => (condList c b).all id)
      = lib.books.filter (fun b => specMatches c b) :=
    List.filter_congr (fun b _ => condList_all_eq_specMatches c b hid)
  simp [Library.search, hid, hloop, hfilter, Except.map]

/-- Witness for C7: the claim's own example, titles "A","B"("C" here),"A":
exactly the two books titled "A" come back, in their original order. -/
theorem search_conjunctive_filter_witness :
    Library.search ⟨[bkA, bkB, bkA2]⟩ { title := some "A" }
      = .ok (.books [bkA, bkA2]) :=
  search_conjunctive_filter ⟨[bkA, bkB, bkA2]⟩ { title := some "A" } rfl
    (Or.inl rfl)

/-- Claim C8, counterexample: two distinct objects with identical fields;
`delete` on the structurally-equal twin raises `ValueError` instead of
removing the resident book, because `list.remove` compares `Book`s by
identity (`Book` defines no structural equality). -/
theorem delete_requires_identity :
    ((⟨0, bkA⟩ : BookRef).val = (⟨1, bkA⟩ : BookRef).val)
    ∧ ((⟨0, bkA⟩ : BookRef) ≠ ⟨1, bkA⟩)
    ∧ Library.delete [⟨0, bkA⟩] ⟨1, bkA⟩ = .error VALUE_ERROR
    ∧ Library.delete [⟨0, bkA⟩] ⟨1, bkA⟩ ≠ .ok [] := by
  refine ⟨rfl, by decide, rfl, fun hcontra => ?_⟩
  have h2 : (Except.error VALUE_ERROR : Except String (List BookRef))
      = .ok [] := hcontra
  cases h2

/-- Claim C8 (amended): `Remove` deletes the first match under Python object
equality — identity for `Book` — and, when no identical object is present
(a field-for-field copy does not count), raises `ValueError`, removing
nothing. -/
theorem delete_identity_amended :
    (∀ (pre post : List BookRef) (x b : BookRef),
        (∀ y ∈ pre, y.pyEq b = false) → x.pyEq b = true →
        Library.delete (pre ++ x :: post) b = .ok (pre ++ post))
    ∧ (∀ (books : List BookRef) (b : BookRef),
        (∀ y ∈ books, y.pyEq b = false) →
        Library.delete books b = .error VALUE_ERROR) := by
  constructor
  · intro pre post x b
    induction pre with
    | nil =>
      intro hpre hx
      simp [Library.delete, removeFirst, hx]
    | cons y ys ih =>
      intro hpre hx
      have hy : y.pyEq b = false := hpre y (by simp)
      have ih2 := ih (fun z hz => hpre z (by simp [hz])) hx
      simp only [Library.delete] at ih2 ⊢
      simp [removeFirst, hy, ih2, Except.map]
  · intro books b
    induction books with
    | nil => intro h; rfl
    | cons y ys ih =>
      intro h
      have hy : y.pyEq b = false := h y (by simp)
      have ih2 := ih (fun z hz => h z (by simp [hz]))
      simp only [Library.delete] at ih2 ⊢
      simp [removeFirst, hy, ih2, Except.map]

/-- Witness for the amended C8: deleting a present object removes exactly it. -/
theorem delete_identity_amended_witness :
    Library.delete [⟨0, bkA⟩, ⟨1, bkB⟩] ⟨1, bkB⟩ = .ok [⟨0, bkA⟩] :=
  delete_identity_amended.1 [⟨0, bkA⟩] [] ⟨1, bkB⟩ ⟨1, bkB⟩ (by decide) rfl

/-- Claim C9: `add_book` appends at the end unconditionally — it is a total
function, so it succeeds for every book, in particular one whose id already
occurs — and `list` afterwards returns the books in insertion order with the
new book last. -/
theorem add_book_appends_in_order (lib : Library) (b : Book) :
    (lib.add_book b).list = lib.list ++ [b]
    ∧ ((lib.add_book b).list).getLast? = some b := by
  refine ⟨rfl, ?_⟩
  simp only [Library.add_book, Library.list]
  exact List.getLast?_concat lib.books

/-- Claim C10: a successful `load_data` never clears the library: the books
already held stay, in order, the file's books are appended after them in file
order, and loading the same data again duplicates them. -/
theorem load_appends_preserves_existing (lib : Library) (data : List BookDict)
    (lib' : Library) (h : Library.load_data lib data = .ok lib') :
    ∃ bs, booksFrom data = .ok bs ∧ lib'.books = lib.books ++ bs
      ∧ Library.load_data lib' data = .ok ⟨lib.books ++ (bs ++ bs)⟩ := by
  rw [load_data_eq] at h
  cases hbf : booksFrom data with
  | error e => rw [hbf] at h; simp [Except.map] at h
  | ok bs =>
    rw [hbf] at h
    have h2 : (Except.ok (Library.mk (lib.books ++ bs)) : Except String Library)
        = .ok lib' := h
    cases h2
    refine ⟨bs, rfl, rfl, ?_⟩
    rw [load_data_eq, hbf]
    simp [Except.map, List.append_assoc]

/-- Witness for C10 on a one-book library and a one-book file. -/
theorem load_appends_preserves_existing_witness :
    ∃ bs, booksFrom [Book.toDict bkB] = .ok bs
      ∧ (Library.mk [bkA, bkB]).books = (Library.mk [bkA]).books ++ bs
      ∧ Library.load_data ⟨[bkA, bkB]⟩ [Book.toDict bkB]
          = .ok ⟨(Library.mk [bkA]).books ++ (bs ++ bs)⟩ :=
  load_appends_preserves_existing ⟨[bkA]⟩ [Book.toDict bkB] ⟨[bkA, bkB]⟩ rfl
